import Mathlib

/-!
Verification development for the LTC5599 quadrature-modulator driver
(src/files/ltc5599.c).  The driver state is embedded shallowly: the 32-byte
shadow register file and the physical device register file are modelled as
functions from register address to byte value (observed modulo 256, since the
C arrays hold `u8`), and the SPI bus is modelled by a fault oracle
`flt : Nat -> Option Int` giving, for the n-th bus transaction of a run, either
`none` (success) or `some c` (transport failure with error code `c`, mirroring
a negative return from `spi_sync`).  Every bus transaction is recorded in
`buslog` as the transmitted 2-byte frame, so "performs zero bus transactions"
is expressible as `buslog` being unchanged.
-/

/-- Error results of the driver entry points: `einval` models `-EINVAL`,
`ebus c` models a transport error code `c` propagated verbatim from the bus
layer.  Success is modelled by `none` in an `Option Err`. -/
inductive Err where
  | einval : Err
  | ebus : Int → Err
deriving DecidableEq

/-- Driver-visible state: the shadow register cache `shadowregs`
(struct ltc5599, field shadowregs[32]), the physical chip register file
`devregs` (external to the driver, written/read over the bus), and the log of
2-byte frames put on the bus so far. -/
structure LTCState where
  shadowregs : Nat → Nat
  devregs : Nat → Nat
  buslog : List (Nat × Nat)

/-- Register addresses, from the C macros. -/
def LTC5599_FREQ_REG : Nat := 0x00

def LTC5599_GAIN_REG : Nat := 0x01

def LTC5599_OFFSI_REG : Nat := 0x02

def LTC5599_OFFSQ_REG : Nat := 0x03

def LTC5599_IQ_GAINRAT_REG : Nat := 0x04

def LTC5599_IQ_PHASEBAL_REG : Nat := 0x05

def LTC5599_LOMATCH_OVR_REG : Nat := 0x06

def LTC5599_TEMPCORR_OVR_REG : Nat := 0x07

def LTC5599_MODE_REG : Nat := 0x08

/-- A bus fault oracle under which every transaction succeeds. -/
def busOK : Nat → Option Int := fun _ => none

/-- ltc5599_write: builds the frame `data[0] = ((addr & 0x7F) << 1) & ~1`,
`data[1] = val & 0xFF` and performs one full-duplex exchange.  On success the
device latches `data[1]` into register `addr & 0x7F`; on transport failure the
error is returned unchanged and the device register is not modelled as
changed. -/
def ltc5599_write (flt : Nat → Option Int) (st : LTCState) (addr val : Nat) :
    Option Err × LTCState :=
  let b0 := (addr % 128) * 2
  let b1 := val % 256
  let st1 : LTCState := { st with buslog := st.buslog ++ [(b0, b1)] }
  match flt st.buslog.length with
  | some c => (some (Err.ebus c), st1)
  | none =>
      (none, { st1 with devregs := fun a => if a = addr % 128 then b1 else st.devregs a })

/-- ltc5599_read: builds the frame `data[0] = ((addr & 0x7F) << 1) | 1`,
`data[1] = 0xFF` and performs one exchange; the byte clocked back in the
second position is the device register content. -/
def ltc5599_read (flt : Nat → Option Int) (st : LTCState) (addr : Nat) :
    Option Err × LTCState × Nat :=
  let b0 := (addr % 128) * 2 + 1
  let st1 : LTCState := { st with buslog := st.buslog ++ [(b0, 0xFF)] }
  match flt st.buslog.length with
  | some c => (some (Err.ebus c), st1, 0)
  | none => (none, st1, st.devregs (addr % 128) % 256)

/-- ltc5599_write_freq: read-modify-write of the low 7 bits of the frequency
register.  The C computes `tmp = (tmp & ~LTC5599_FREQ_MASK) | (val & 0x7F)` on
the `u8` shadow byte; on a byte, `& ~0x7F` is `&&& 0x80`. -/
def ltc5599_write_freq (flt : Nat → Option Int) (st : LTCState) (val : Nat) :
    Option Err × LTCState :=
  let tmp := ((st.shadowregs LTC5599_FREQ_REG % 256) &&& 0x80) ||| (val &&& 0x7F)
  match ltc5599_write flt st LTC5599_FREQ_REG tmp with
  | (some e, st1) => (some e, st1)
  | (none, st1) =>
      (none, { st1 with
        shadowregs := fun a => if a = LTC5599_FREQ_REG then tmp else st1.shadowregs a })

/-- ltc5599_read_freq: bus read of the frequency register, cache update, then
`*val = shadowregs[FREQ_REG] & LTC5599_FREQ_MASK`. -/
def ltc5599_read_freq (flt : Nat → Option Int) (st : LTCState) :
    Option Err × LTCState × Nat :=
  match ltc5599_read flt st LTC5599_FREQ_REG with
  | (some e, st1, _) => (some e, st1, 0)
  | (none, st1, tmp) =>
      let st2 : LTCState :=
        { st1 with shadowregs := fun a => if a = LTC5599_FREQ_REG then tmp else st1.shadowregs a }
      (none, st2, (st2.shadowregs LTC5599_FREQ_REG % 256) &&& 0x7F)

/-- ltc5599_write_gain: read-modify-write of the low 5 bits of the gain
register; `& ~LTC5599_GAIN_MASK` on a byte is `&&& 0xE0`. -/
def ltc5599_write_gain (flt : Nat → Option Int) (st : LTCState) (val : Nat) :
    Option Err × LTCState :=
  let tmp := ((st.shadowregs LTC5599_GAIN_REG % 256) &&& 0xE0) ||| (val &&& 0x1F)
  match ltc5599_write flt st LTC5599_GAIN_REG tmp with
  | (some e, st1) => (some e, st1)
  | (none, st1) =>
      (none, { st1 with
        shadowregs := fun a => if a = LTC5599_GAIN_REG then tmp else st1.shadowregs a })

/-- ltc5599_read_gain: bus read, cache update, `*val = shadow & 0x1F`. -/
def ltc5599_read_gain (flt : Nat → Option Int) (st : LTCState) :
    Option Err × LTCState × Nat :=
  match ltc5599_read flt st LTC5599_GAIN_REG with
  | (some e, st1, _) => (some e, st1, 0)
  | (none, st1, tmp) =>
      let st2 : LTCState :=
        { st1 with shadowregs := fun a => if a = LTC5599_GAIN_REG then tmp else st1.shadowregs a }
      (none, st2, (st2.shadowregs LTC5599_GAIN_REG % 256) &&& 0x1F)

/-- ltc5599_write_offset: rejects channels above 1, clamps the signed value to
[-127, 127], encodes as `val + 128` and writes register `OFFSI + chan`.
`LTC5599_OFFS_VALUE(val) = val & 0xFF` on an `int` is the nonnegative residue
modulo 256 (`Int.emod`). -/
def ltc5599_write_offset (flt : Nat → Option Int) (st : LTCState) (chan : Nat) (val : Int) :
    Option Err × LTCState :=
  if chan > 1 then (some Err.einval, st)
  else
    let v1 : Int := if val > 127 then 127 else val
    let v2 : Int := if v1 < -127 then -127 else v1
    let tmp : Nat := ((v2 + 128) % 256).toNat
    match ltc5599_write flt st (LTC5599_OFFSI_REG + chan) tmp with
    | (some e, st1) => (some e, st1)
    | (none, st1) =>
        (none, { st1 with
          shadowregs := fun a => if a = LTC5599_OFFSI_REG + chan then tmp else st1.shadowregs a })

/-- ltc5599_read_offset: rejects channels above 1, reads register
`OFFSI + chan`, updates the cache, and returns `stored byte - 128`. -/
def ltc5599_read_offset (flt : Nat → Option Int) (st : LTCState) (chan : Nat) :
    Option Err × LTCState × Int :=
  if chan > 1 then (some Err.einval, st, 0)
  else
    match ltc5599_read flt st (LTC5599_OFFSI_REG + chan) with
    | (some e, st1, _) => (some e, st1, 0)
    | (none, st1, tmp) =>
        let st2 : LTCState :=
          { st1 with
            shadowregs := fun a => if a = LTC5599_OFFSI_REG + chan then tmp else st1.shadowregs a }
        (none, st2, ((st2.shadowregs (LTC5599_OFFSI_REG + chan) % 256 : Nat) : Int) - 128)

/-- Encoding of the quadrature-gain-ratio register byte:
`tmp = LTC5599_IQ_GAINRAT_VALUE(val); tmp ^= 0x80` where
`IQ_GAINRAT_VALUE(n) = n & 0xFF`. -/
def gainrat_byte (val : Int) : Nat := ((val % 256).toNat) ^^^ 0x80

/-- ltc5599_write_iqgainratio (renamed: gainrat, after the register macro):
writes the XOR-0x80 encoded byte to the gain-ratio register. -/
def ltc5599_write_iqgainrat (flt : Nat → Option Int) (st : LTCState) (val : Int) :
    Option Err × LTCState :=
  let tmp := gainrat_byte val
  match ltc5599_write flt st LTC5599_IQ_GAINRAT_REG tmp with
  | (some e, st1) => (some e, st1)
  | (none, st1) =>
      (none, { st1 with
        shadowregs := fun a => if a = LTC5599_IQ_GAINRAT_REG then tmp else st1.shadowregs a })

/-- ltc5599_read_iqgainratio (renamed: gainrat): reads the gain-ratio
register, updates the cache, and returns `stored byte - 128`. -/
def ltc5599_read_iqgainrat (flt : Nat → Option Int) (st : LTCState) :
    Option Err × LTCState × Int :=
  match ltc5599_read flt st LTC5599_IQ_GAINRAT_REG with
  | (some e, st1, _) => (some e, st1, 0)
  | (none, st1, tmp) =>
      let st2 : LTCState :=
        { st1 with
          shadowregs := fun a => if a = LTC5599_IQ_GAINRAT_REG then tmp else st1.shadowregs a }
      (none, st2, ((st2.shadowregs LTC5599_IQ_GAINRAT_REG % 256 : Nat) : Int) - 128)

/-- The coarse field of a phase-balance write: `(val+16)/32` if `val > 0`,
else `(15-val)/32`, with the C truncating division (`Int.tdiv`). -/
def phase_coarse (val : Int) : Int :=
  if val > 0 then Int.tdiv (val + 16) 32 else Int.tdiv (15 - val) 32

/-- The phase-register byte of a phase-balance write:
`LTC5599_IQ_PHASEBAL_EXT_VALUE(coarse) | LTC5599_IQ_PHASEBAL_FINE_VALUE((val & 0x1F) ^ 0x10)`,
i.e. `((coarse & 7) << 5) | ((((val & 0x1F) ^ 0x10)) & 0x1F)`; bitwise-and of
an `int` with a low-bit mask is the nonnegative residue. -/
def phase_reg_byte (val : Int) : Nat :=
  (((phase_coarse val % 8).toNat) <<< 5) |||
    ((((val % 32).toNat) ^^^ 0x10) &&& 0x1F)

/-- ltc5599_write_iqphasebalance: sets/clears bit 7 of the (shadow) frequency
byte from the sign threshold `val < -16`, writes the phase register first and
the frequency register second, updating the cache entry after each successful
write. -/
def ltc5599_write_iqphasebal (flt : Nat → Option Int) (st : LTCState) (val : Int) :
    Option Err × LTCState :=
  let tmp2 :=
    if val < -16 then (st.shadowregs LTC5599_FREQ_REG % 256) &&& 0x7F
    else (st.shadowregs LTC5599_FREQ_REG % 256) ||| 0x80
  let tmp1 := phase_reg_byte val
  match ltc5599_write flt st LTC5599_IQ_PHASEBAL_REG tmp1 with
  | (some e, st1) => (some e, st1)
  | (none, st1) =>
      let st2 : LTCState :=
        { st1 with
          shadowregs := fun a => if a = LTC5599_IQ_PHASEBAL_REG then tmp1 else st1.shadowregs a }
      match ltc5599_write flt st2 LTC5599_FREQ_REG tmp2 with
      | (some e, st3) => (some e, st3)
      | (none, st3) =>
          (none, { st3 with
            shadowregs := fun a => if a = LTC5599_FREQ_REG then tmp2 else st3.shadowregs a })

/-- ltc5599_read_iqphasebalance: reads the frequency register (sign bit),
then the phase register, updating the cache after each read, and decodes
`(fine - 16) + multiplier * coarse * 32`. -/
def ltc5599_read_iqphasebal (flt : Nat → Option Int) (st : LTCState) :
    Option Err × LTCState × Int :=
  match ltc5599_read flt st LTC5599_FREQ_REG with
  | (some e, st1, _) => (some e, st1, 0)
  | (none, st1, tmp) =>
      let st2 : LTCState :=
        { st1 with shadowregs := fun a => if a = LTC5599_FREQ_REG then tmp else st1.shadowregs a }
      let multiplier : Int := if tmp &&& 0x80 ≠ 0 then 1 else -1
      match ltc5599_read flt st2 LTC5599_IQ_PHASEBAL_REG with
      | (some e, st3, _) => (some e, st3, 0)
      | (none, st3, tmpb) =>
          let st4 : LTCState :=
            { st3 with
              shadowregs := fun a => if a = LTC5599_IQ_PHASEBAL_REG then tmpb else st3.shadowregs a }
          let coarse : Nat := (tmpb &&& 0xE0) >>> 5
          (none, st4, ((tmpb &&& 0x1F : Nat) : Int) - 16 + multiplier * (coarse : Int) * 32)

/-- ltc5599_fill_shadowregs: primes the shadow cache with the documented
power-on-reset values; all other slots are zero. -/
def ltc5599_fill_shadowregs (st : LTCState) : LTCState :=
  { st with
    shadowregs := fun a =>
      if a = LTC5599_FREQ_REG then 0x2E
      else if a = LTC5599_GAIN_REG then 0x84
      else if a = LTC5599_OFFSI_REG then 0x80
      else if a = LTC5599_OFFSQ_REG then 0x80
      else if a = LTC5599_IQ_GAINRAT_REG then 0x80
      else if a = LTC5599_IQ_PHASEBAL_REG then 0x10
      else if a = LTC5599_LOMATCH_OVR_REG then 0x50
      else if a = LTC5599_TEMPCORR_OVR_REG then 0x06
      else if a = LTC5599_MODE_REG then 0x00
      else 0 }

/-- A freshly probed device instance: empty bus log, device registers
modelled as all-zero (their actual content is external), shadow cache primed
by ltc5599_fill_shadowregs. -/
def st0 : LTCState :=
  ltc5599_fill_shadowregs { shadowregs := fun _ => 0, devregs := fun _ => 0, buslog := [] }

/-- freq_to_ctrl_word: the 120-threshold strict greater-than lookup from
frequency in kHz to the 7-bit tuning word, transcribed threshold-for-threshold
from the C chain. -/
def freq_to_ctrl_word (freq_in_khz : Nat) : Nat :=
  if freq_in_khz > 1249100 then 1
  else if freq_in_khz > 1248600 then 2
  else if freq_in_khz > 1238100 then 3
  else if freq_in_khz > 1214100 then 4
  else if freq_in_khz > 1191200 then 5
  else if freq_in_khz > 1165600 then 6
  else if freq_in_khz > 1141000 then 7
  else if freq_in_khz > 1120600 then 8
  else if freq_in_khz > 1100500 then 9
  else if freq_in_khz > 1069500 then 10
  else if freq_in_khz > 1039599 then 11
  else if freq_in_khz > 1023100 then 12
  else if freq_in_khz > 1007100 then 13
  else if freq_in_khz > 988300 then 14
  else if freq_in_khz > 961800 then 15
  else if freq_in_khz > 941300 then 16
  else if freq_in_khz > 921500 then 17
  else if freq_in_khz > 895200 then 18
  else if freq_in_khz > 877600 then 19
  else if freq_in_khz > 863600 then 20
  else if freq_in_khz > 843200 then 21
  else if freq_in_khz > 826900 then 22
  else if freq_in_khz > 807000 then 23
  else if freq_in_khz > 792300 then 24
  else if freq_in_khz > 772200 then 25
  else if freq_in_khz > 752700 then 26
  else if freq_in_khz > 734000 then 27
  else if freq_in_khz > 724200 then 28
  else if freq_in_khz > 704600 then 29
  else if freq_in_khz > 688700 then 30
  else if freq_in_khz > 673200 then 31
  else if freq_in_khz > 655200 then 32
  else if freq_in_khz > 638100 then 33
  else if freq_in_khz > 624600 then 34
  else if freq_in_khz > 611900 then 35
  else if freq_in_khz > 598400 then 36
  else if freq_in_khz > 585100 then 37
  else if freq_in_khz > 573900 then 38
  else if freq_in_khz > 563100 then 39
  else if freq_in_khz > 548100 then 40
  else if freq_in_khz > 538100 then 41
  else if freq_in_khz > 529100 then 42
  else if freq_in_khz > 518500 then 43
  else if freq_in_khz > 507000 then 44
  else if freq_in_khz > 497700 then 45
  else if freq_in_khz > 488000 then 46
  else if freq_in_khz > 471500 then 47
  else if freq_in_khz > 457700 then 48
  else if freq_in_khz > 448700 then 49
  else if freq_in_khz > 437400 then 50
  else if freq_in_khz > 426600 then 51
  else if freq_in_khz > 417500 then 52
  else if freq_in_khz > 407500 then 53
  else if freq_in_khz > 398000 then 54
  else if freq_in_khz > 390100 then 55
  else if freq_in_khz > 382800 then 56
  else if freq_in_khz > 376600 then 57
  else if freq_in_khz > 369800 then 58
  else if freq_in_khz > 353100 then 59
  else if freq_in_khz > 339000 then 60
  else if freq_in_khz > 332600 then 61
  else if freq_in_khz > 327200 then 62
  else if freq_in_khz > 320600 then 63
  else if freq_in_khz > 313700 then 64
  else if freq_in_khz > 309100 then 65
  else if freq_in_khz > 304500 then 66
  else if freq_in_khz > 288100 then 67
  else if freq_in_khz > 278300 then 68
  else if freq_in_khz > 274200 then 69
  else if freq_in_khz > 270300 then 70
  else if freq_in_khz > 266000 then 71
  else if freq_in_khz > 261899 then 72
  else if freq_in_khz > 258200 then 73
  else if freq_in_khz > 254100 then 74
  else if freq_in_khz > 243600 then 75
  else if freq_in_khz > 233800 then 76
  else if freq_in_khz > 230800 then 77
  else if freq_in_khz > 228000 then 78
  else if freq_in_khz > 220200 then 79
  else if freq_in_khz > 212600 then 80
  else if freq_in_khz > 210000 then 81
  else if freq_in_khz > 207600 then 82
  else if freq_in_khz > 202100 then 83
  else if freq_in_khz > 196200 then 84
  else if freq_in_khz > 193700 then 85
  else if freq_in_khz > 191200 then 86
  else if freq_in_khz > 186600 then 87
  else if freq_in_khz > 182000 then 88
  else if freq_in_khz > 179400 then 89
  else if freq_in_khz > 176000 then 90
  else if freq_in_khz > 170100 then 91
  else if freq_in_khz > 165000 then 92
  else if freq_in_khz > 162500 then 93
  else if freq_in_khz > 160000 then 94
  else if freq_in_khz > 156700 then 95
  else if freq_in_khz > 153600 then 96
  else if freq_in_khz > 151100 then 97
  else if freq_in_khz > 148600 then 98
  else if freq_in_khz > 142500 then 99
  else if freq_in_khz > 139600 then 100
  else if freq_in_khz > 136500 then 101
  else if freq_in_khz > 134300 then 102
  else if freq_in_khz > 131200 then 103
  else if freq_in_khz > 128100 then 104
  else if freq_in_khz > 126000 then 105
  else if freq_in_khz > 123800 then 106
  else if freq_in_khz > 121300 then 107
  else if freq_in_khz > 118300 then 108
  else if freq_in_khz > 115700 then 109
  else if freq_in_khz > 113500 then 110
  else if freq_in_khz > 111300 then 111
  else if freq_in_khz > 109500 then 112
  else if freq_in_khz > 107600 then 113
  else if freq_in_khz > 105600 then 114
  else if freq_in_khz > 103000 then 115
  else if freq_in_khz > 100300 then 116
  else if freq_in_khz > 98500 then 117
  else if freq_in_khz > 96600 then 118
  else if freq_in_khz > 94700 then 119
  else if freq_in_khz > 93000 then 120
  else 121

/-- The IIO_CHAN_INFO selector values handled by the raw accessors; `other`
stands for every selector outside the five handled cases. -/
inductive ChanInfo where
  | offset
  | frequency
  | hardwaregain
  | quadrature_correction_raw
  | phase
  | other
deriving DecidableEq

/-- ltc5599_read_raw: dispatch on the info selector.  For frequency the raw
tuning word is fed through the cubic polynomial with `long long`
intermediates; since the word is at most 127 every intermediate and the
result fit both `long long` and `int`, so plain `Int` arithmetic is exact. -/
def ltc5599_read_raw (flt : Nat → Option Int) (st : LTCState) (info : ChanInfo)
    (chanAddr : Nat) : Option Err × LTCState × Int :=
  match info with
  | ChanInfo.offset => ltc5599_read_offset flt st chanAddr
  | ChanInfo.frequency =>
      match ltc5599_read_freq flt st with
      | (some e, st1, _) => (some e, st1, 0)
      | (none, st1, tmp) =>
          let w : Int := (tmp : Int)
          (none, st1, (-553) * w * w * w + 198810 * w * w + (-26120002) * w + 1319492809)
  | ChanInfo.hardwaregain =>
      match ltc5599_read_gain flt st with
      | (some e, st1, _) => (some e, st1, 0)
      | (none, st1, tmp) => (none, st1, (-1) * (tmp : Int))
  | ChanInfo.quadrature_correction_raw => ltc5599_read_iqgainrat flt st
  | ChanInfo.phase => ltc5599_read_iqphasebal flt st
  | ChanInfo.other => (some Err.einval, st, 0)

/-- ltc5599_write_raw: dispatch on the info selector, with the domain checks
performed before any bus access.  The frequency division `val / 1000` is a C
truncating division of a positive `int`; the gain conversion `tmp = -val`
converts the nonpositive `int` to `unsigned`. -/
def ltc5599_write_raw (flt : Nat → Option Int) (st : LTCState) (info : ChanInfo)
    (chanAddr : Nat) (val : Int) : Option Err × LTCState :=
  match info with
  | ChanInfo.offset =>
      if val < -127 ∨ val > 127 then (some Err.einval, st)
      else ltc5599_write_offset flt st chanAddr val
  | ChanInfo.frequency =>
      if val < 30000000 ∨ val > 1300000000 then (some Err.einval, st)
      else ltc5599_write_freq flt st (freq_to_ctrl_word (val.toNat / 1000))
  | ChanInfo.hardwaregain =>
      if val > 0 then (some Err.einval, st)
      else
        let tmp : Nat := (-val).toNat
        let tmp := if tmp > 19 then 19 else tmp
        ltc5599_write_gain flt st tmp
  | ChanInfo.quadrature_correction_raw =>
      if val < -127 ∨ val > 127 then (some Err.einval, st)
      else ltc5599_write_iqgainrat flt st val
  | ChanInfo.phase =>
      if val < -240 ∨ val > 239 then (some Err.einval, st)
      else ltc5599_write_iqphasebal flt st val
  | ChanInfo.other => (some Err.einval, st)

/-! Helper lemmas about byte masks. -/

theorem or_and_distrib (x y m : Nat) : (x ||| y) &&& m = (x &&& m) ||| (y &&& m) := by
  rw [Nat.and_comm, Nat.and_or_distrib_left, Nat.and_comm m x, Nat.and_comm m y]

theorem mod256_mod256 (a : Nat) : a % 256 % 256 = a % 256 :=
  Nat.mod_mod_of_dvd a (dvd_refl 256)

theorem merge_mask_hi (a b : Nat) : ((a &&& 128) ||| (b &&& 127)) &&& 128 = a &&& 128 := by
  rw [or_and_distrib, Nat.and_assoc, Nat.and_assoc,
    (by decide : (128 : Nat) &&& 128 = 128), (by decide : (127 : Nat) &&& 128 = 0),
    Nat.and_zero, Nat.or_zero]

theorem merge_mask_lo (a b : Nat) : ((a &&& 128) ||| (b &&& 127)) &&& 127 = b &&& 127 := by
  rw [or_and_distrib, Nat.and_assoc, Nat.and_assoc,
    (by decide : (128 : Nat) &&& 127 = 0), (by decide : (127 : Nat) &&& 127 = 127),
    Nat.and_zero, Nat.zero_or]

theorem merge_mask_hi5 (a b : Nat) : ((a &&& 224) ||| (b &&& 31)) &&& 224 = a &&& 224 := by
  rw [or_and_distrib, Nat.and_assoc, Nat.and_assoc,
    (by decide : (224 : Nat) &&& 224 = 224), (by decide : (31 : Nat) &&& 224 = 0),
    Nat.and_zero, Nat.or_zero]

theorem merge_mask_lo5 (a b : Nat) : ((a &&& 224) ||| (b &&& 31)) &&& 31 = b &&& 31 := by
  rw [or_and_distrib, Nat.and_assoc, Nat.and_assoc,
    (by decide : (224 : Nat) &&& 31 = 0), (by decide : (31 : Nat) &&& 31 = 31),
    Nat.and_zero, Nat.zero_or]

theorem or128_and127 (a : Nat) : (a ||| 128) &&& 127 = a &&& 127 := by
  rw [or_and_distrib, (by decide : (128 : Nat) &&& 127 = 0), Nat.or_zero]

theorem and127_and127 (a : Nat) : (a &&& 127) &&& 127 = a &&& 127 := by
  rw [Nat.and_assoc, (by decide : (127 : Nat) &&& 127 = 127)]

theorem and127_and128 (a : Nat) : (a &&& 127) &&& 128 = 0 := by
  rw [Nat.and_assoc, (by decide : (127 : Nat) &&& 128 = 0), Nat.and_zero]

theorem or128_ne_zero (x : Nat) : x ||| 128 ≠ 0 := by
  intro h
  have h7 := congrArg (fun t => Nat.testBit t 7) h
  simp only [Nat.testBit_or, (by decide : Nat.testBit 128 7 = true), Bool.or_true,
    Nat.zero_testBit] at h7
  exact Bool.noConfusion h7

theorem or128_and128_ne (a : Nat) : (a ||| 128) &&& 128 ≠ 0 := by
  rw [or_and_distrib, (by decide : (128 : Nat) &&& 128 = 128)]
  exact or128_ne_zero _

/-- C1: the claim states that a public (write_raw) offset write of 200 is
clamped and succeeds; in fact the public dispatcher rejects any offset input
outside [-127, 127] with -EINVAL before the per-channel helper (which contains
the clamp) is ever reached. -/
theorem offset_write_raw_200_rejected :
    ltc5599_write_raw busOK st0 ChanInfo.offset 0 200 = (some Err.einval, st0) := by
  rfl

/-- C1 (amended): the public offset write of 200 returns InvalidArgument with
zero bus traffic, while the internal offset-write helper, called directly with
200, clamps to 127, stores byte 0xFF in the channel offset register, and
performs exactly one bus write. -/
theorem offset_clamp_internal_only :
    (ltc5599_write_raw busOK st0 ChanInfo.offset 0 200).1 = some Err.einval ∧
    (ltc5599_write_raw busOK st0 ChanInfo.offset 0 200).2.buslog = [] ∧
    (ltc5599_write_offset busOK st0 0 200).1 = none ∧
    (ltc5599_write_offset busOK st0 0 200).2.shadowregs (LTC5599_OFFSI_REG + 0) = 0xFF ∧
    (ltc5599_write_offset busOK st0 0 200).2.buslog = [(4, 0xFF)] := by
  decide

/-- C5: the frequency lookup uses strict greater-than thresholds on the
frequency in kHz: 1,300,000,000 Hz gives tuning word 1; the boundary
1,249,100,000 Hz gives word 2, not 1; 30,000,000 Hz gives word 121; and the
public frequency write stores exactly that word in the frequency register. -/
theorem freq_lookup_thresholds :
    freq_to_ctrl_word (1300000000 / 1000) = 1 ∧
    freq_to_ctrl_word (1249100000 / 1000) = 2 ∧
    freq_to_ctrl_word (30000000 / 1000) = 121 ∧
    (ltc5599_write_raw busOK st0 ChanInfo.frequency 0 1300000000).2.shadowregs
      LTC5599_FREQ_REG = 1 ∧
    (ltc5599_write_raw busOK st0 ChanInfo.frequency 0 1249100000).2.shadowregs
      LTC5599_FREQ_REG = 2 ∧
    (ltc5599_write_raw busOK st0 ChanInfo.frequency 0 30000000).2.shadowregs
      LTC5599_FREQ_REG = 121 := by
  decide

/-- C7: out-of-domain write inputs are rejected with InvalidArgument before
any bus access: positive gains, frequencies outside [30 MHz, 1.3 GHz],
quadrature-gain-ratio inputs outside [-127, 127] and phase-balance inputs
outside [-240, 239] all return -EINVAL and leave the whole state (bus log,
shadow cache, device) untouched. -/
theorem write_raw_rejects_out_of_domain :
    ∀ (flt : Nat → Option Int) (st : LTCState) (chanAddr : Nat),
      (∀ v : Int, 0 < v →
        ltc5599_write_raw flt st ChanInfo.hardwaregain chanAddr v = (some Err.einval, st)) ∧
      (∀ v : Int, v < 30000000 ∨ 1300000000 < v →
        ltc5599_write_raw flt st ChanInfo.frequency chanAddr v = (some Err.einval, st)) ∧
      (∀ v : Int, v < -127 ∨ 127 < v →
        ltc5599_write_raw flt st ChanInfo.quadrature_correction_raw chanAddr v
          = (some Err.einval, st)) ∧
      (∀ v : Int, v < -240 ∨ 239 < v →
        ltc5599_write_raw flt st ChanInfo.phase chanAddr v = (some Err.einval, st)) := by
  intro flt st chanAddr
  refine ⟨fun v h => ?_, fun v h => ?_, fun v h => ?_, fun v h => ?_⟩ <;>
    simp only [ltc5599_write_raw] <;> rw [if_pos h]

/-- C7 witness: concrete rejected inputs for each of the four parameters. -/
theorem write_raw_rejects_out_of_domain_check :
    ltc5599_write_raw busOK st0 ChanInfo.hardwaregain 0 5 = (some Err.einval, st0) ∧
    ltc5599_write_raw busOK st0 ChanInfo.frequency 0 1300000001 = (some Err.einval, st0) ∧
    ltc5599_write_raw busOK st0 ChanInfo.quadrature_correction_raw 0 128
      = (some Err.einval, st0) ∧
    ltc5599_write_raw busOK st0 ChanInfo.phase 0 240 = (some Err.einval, st0) :=
  ⟨(write_raw_rejects_out_of_domain busOK st0 0).1 5 (by norm_num),
   (write_raw_rejects_out_of_domain busOK st0 0).2.1 1300000001 (by norm_num),
   (write_raw_rejects_out_of_domain busOK st0 0).2.2.1 128 (by norm_num),
   (write_raw_rejects_out_of_domain busOK st0 0).2.2.2 240 (by norm_num)⟩

/-- C10: for any channel index greater than 1, both the offset write and the
offset read return InvalidArgument immediately, with no bus transaction and
no shadow-cache update, whatever the value argument and bus behaviour. -/
theorem offset_channel_above_one_rejected :
    ∀ (flt : Nat → Option Int) (st : LTCState) (chan : Nat) (val : Int), 1 < chan →
      ltc5599_write_offset flt st chan val = (some Err.einval, st) ∧
      (ltc5599_read_offset flt st chan).1 = some Err.einval ∧
      (ltc5599_read_offset flt st chan).2.1 = st := by
  intro flt st chan val h
  simp [ltc5599_write_offset, ltc5599_read_offset, if_pos h]

/-- C10 witness: channel 2 is rejected. -/
theorem offset_channel_above_one_rejected_check :
    ltc5599_write_offset busOK st0 2 5 = (some Err.einval, st0) ∧
    (ltc5599_read_offset busOK st0 2).1 = some Err.einval ∧
    (ltc5599_read_offset busOK st0 2).2.1 = st0 :=
  offset_channel_above_one_rejected busOK st0 2 5 (by norm_num)

/-- C6: from any state, a frequency read over a fault-free bus succeeds and
returns the cubic polynomial -553*w^3 + 198810*w^2 - 26120002*w + 1319492809
evaluated at the 7-bit tuning word w taken from the low 7 bits of the
frequency register byte. -/
theorem frequency_read_polynomial :
    ∀ (st : LTCState) (chanAddr : Nat),
      (ltc5599_read_raw busOK st ChanInfo.frequency chanAddr).1 = none ∧
      (ltc5599_read_raw busOK st ChanInfo.frequency chanAddr).2.2 =
        -553 * (((st.devregs LTC5599_FREQ_REG % 256) &&& 0x7F : Nat) : Int) ^ 3
          + 198810 * (((st.devregs LTC5599_FREQ_REG % 256) &&& 0x7F : Nat) : Int) ^ 2
          - 26120002 * (((st.devregs LTC5599_FREQ_REG % 256) &&& 0x7F : Nat) : Int)
          + 1319492809 := by
  intro st chanAddr
  simp only [ltc5599_read_raw, ltc5599_read_freq, ltc5599_read, busOK, LTC5599_FREQ_REG,
    mod256_mod256]
  norm_num [mod256_mod256]
  ring

/-- C9: the read-modify-write sequences preserve unrelated bit-fields that
share a register byte: a frequency write keeps bit 7 (the phase sign) of the
frequency byte and changes only its low 7 bits; a gain write keeps bits 5-7
(mode control) of the gain byte and changes only its low 5 bits; a
phase-balance write keeps the low 7 bits (the tuning word) of the frequency
byte and changes only its bit 7. -/
theorem write_preserves_unrelated_bits :
    ∀ (st : LTCState) (v : Nat) (vi : Int),
      (ltc5599_write_freq busOK st v).1 = none ∧
      (ltc5599_write_freq busOK st v).2.shadowregs LTC5599_FREQ_REG &&& 0x80
        = (st.shadowregs LTC5599_FREQ_REG % 256) &&& 0x80 ∧
      (ltc5599_write_freq busOK st v).2.shadowregs LTC5599_FREQ_REG &&& 0x7F = v &&& 0x7F ∧
      (ltc5599_write_gain busOK st v).1 = none ∧
      (ltc5599_write_gain busOK st v).2.shadowregs LTC5599_GAIN_REG &&& 0xE0
        = (st.shadowregs LTC5599_GAIN_REG % 256) &&& 0xE0 ∧
      (ltc5599_write_gain busOK st v).2.shadowregs LTC5599_GAIN_REG &&& 0x1F = v &&& 0x1F ∧
      (ltc5599_write_iqphasebal busOK st vi).1 = none ∧
      (ltc5599_write_iqphasebal busOK st vi).2.shadowregs LTC5599_FREQ_REG &&& 0x7F
        = (st.shadowregs LTC5599_FREQ_REG % 256) &&& 0x7F := by
  intro st v vi
  refine ⟨?_, ?_, ?_, ?_, ?_, ?_, ?_, ?_⟩
  · simp [ltc5599_write_freq, ltc5599_write, busOK, LTC5599_FREQ_REG]
  · simp [ltc5599_write_freq, ltc5599_write, busOK, LTC5599_FREQ_REG]
    exact merge_mask_hi _ _
  · simp [ltc5599_write_freq, ltc5599_write, busOK, LTC5599_FREQ_REG]
    exact merge_mask_lo _ _
  · simp [ltc5599_write_gain, ltc5599_write, busOK, LTC5599_GAIN_REG]
  · simp [ltc5599_write_gain, ltc5599_write, busOK, LTC5599_GAIN_REG]
    exact merge_mask_hi5 _ _
  · simp [ltc5599_write_gain, ltc5599_write, busOK, LTC5599_GAIN_REG]
    exact merge_mask_lo5 _ _
  · simp [ltc5599_write_iqphasebal, ltc5599_write, busOK, LTC5599_FREQ_REG,
      LTC5599_IQ_PHASEBAL_REG]
  · simp [ltc5599_write_iqphasebal, ltc5599_write, busOK, LTC5599_FREQ_REG,
      LTC5599_IQ_PHASEBAL_REG]
    by_cases h : vi < -16
    · simp [if_pos h]
      exact and127_and127 _
    · simp [if_neg h]
      exact or128_and127 _

/-- C4: for every offset value in [-127, 127] and either channel, writing the
offset over a fault-free bus and reading it back returns exactly the written
value (offset-128 encode and subtract-128 decode are inverses). -/
theorem offset_roundtrip :
    ∀ (st : LTCState) (chan : Nat) (v : Int), chan ≤ 1 → -127 ≤ v → v ≤ 127 →
      (ltc5599_write_offset busOK st chan v).1 = none ∧
      (ltc5599_read_offset busOK (ltc5599_write_offset busOK st chan v).2 chan).1 = none ∧
      (ltc5599_read_offset busOK (ltc5599_write_offset busOK st chan v).2 chan).2.2 = v := by
  intro st chan v hc h1 h2
  have hcc : ¬ chan > 1 := by omega
  have hv1 : ¬ v > 127 := by omega
  simp only [ltc5599_write_offset, ltc5599_read_offset, ltc5599_write, ltc5599_read,
    busOK, LTC5599_OFFSI_REG, if_neg hcc, if_neg hv1]
  rw [if_neg (by omega : ¬ v < -127)]
  norm_num [mod256_mod256]
  have hnn : (0 : Int) ≤ (v + 128) % 256 := Int.emod_nonneg _ (by norm_num)
  rw [sup_eq_left.mpr hnn]
  omega

/-- C4 witness: offset round trip at channel 1 for value -100. -/
theorem offset_roundtrip_check :
    (ltc5599_write_offset busOK st0 1 (-100)).1 = none ∧
    (ltc5599_read_offset busOK (ltc5599_write_offset busOK st0 1 (-100)).2 1).1 = none ∧
    (ltc5599_read_offset busOK (ltc5599_write_offset busOK st0 1 (-100)).2 1).2.2 = -100 :=
  offset_roundtrip st0 1 (-100) (by norm_num) (by norm_num) (by norm_num)

theorem gainrat_byte_lt (v : Int) : gainrat_byte v < 256 := by
  unfold gainrat_byte
  have h1 : (v % 256).toNat < 256 := by
    have := Int.emod_nonneg v (by norm_num : (256 : Int) ≠ 0)
    have := Int.emod_lt_of_pos v (by norm_num : (0 : Int) < 256)
    omega
  calc (v % 256).toNat ^^^ 128 < 2 ^ 8 :=
        Nat.xor_lt_two_pow (by norm_num [h1]) (by norm_num)
    _ = 256 := by norm_num

set_option maxRecDepth 8000 in
theorem gainrat_byte_decode :
    ∀ n : Nat, n < 255 →
      ((gainrat_byte ((n : Int) - 127) : Nat) : Int) - 128 = (n : Int) - 127 := by
  decide

/-- C3: for every quadrature-gain-ratio value in [-127, 127], writing it
(stored as (v & 0xFF) ^ 0x80) over a fault-free bus and reading it back
(decoded as stored byte minus 128) returns exactly the written value. -/
theorem gainrat_roundtrip :
    ∀ (st : LTCState) (v : Int), -127 ≤ v → v ≤ 127 →
      (ltc5599_write_iqgainrat busOK st v).1 = none ∧
      (ltc5599_read_iqgainrat busOK (ltc5599_write_iqgainrat busOK st v).2).1 = none ∧
      (ltc5599_read_iqgainrat busOK (ltc5599_write_iqgainrat busOK st v).2).2.2 = v := by
  intro st v h1 h2
  simp only [ltc5599_write_iqgainrat, ltc5599_read_iqgainrat, ltc5599_write, ltc5599_read,
    busOK, LTC5599_IQ_GAINRAT_REG, mod256_mod256]
  norm_num [mod256_mod256, Nat.mod_eq_of_lt (gainrat_byte_lt v)]
  obtain ⟨n, hn, rfl⟩ : ∃ n : Nat, n < 255 ∧ v = (n : Int) - 127 :=
    ⟨(v + 127).toNat, by omega, by omega⟩
  exact gainrat_byte_decode n hn

/-- C3 witness: gain-ratio round trip for value -1 (stored byte 0x7F). -/
theorem gainrat_roundtrip_check :
    (ltc5599_write_iqgainrat busOK st0 (-1)).1 = none ∧
    (ltc5599_read_iqgainrat busOK (ltc5599_write_iqgainrat busOK st0 (-1)).2).1 = none ∧
    (ltc5599_read_iqgainrat busOK (ltc5599_write_iqgainrat busOK st0 (-1)).2).2.2 = -1 :=
  gainrat_roundtrip st0 (-1) (by norm_num) (by norm_num)

theorem phase_reg_byte_lt (v : Int) : phase_reg_byte v < 256 := by
  unfold phase_reg_byte
  have h1 : (phase_coarse v % 8).toNat < 8 := by
    have := Int.emod_nonneg (phase_coarse v) (by norm_num : (8 : Int) ≠ 0)
    have := Int.emod_lt_of_pos (phase_coarse v) (by norm_num : (0 : Int) < 8)
    omega
  have h2 : (phase_coarse v % 8).toNat <<< 5 < 2 ^ 8 := by
    rw [Nat.shiftLeft_eq]
    norm_num
    omega
  have h3 : (((v % 32).toNat) ^^^ 16) &&& 31 < 2 ^ 8 := by
    have := Nat.and_le_right (n := ((v % 32).toNat) ^^^ 16) (m := 31)
    omega
  calc _ < 2 ^ 8 := Nat.or_lt_two_pow h2 h3
    _ = 256 := by norm_num

set_option maxRecDepth 20000 in
theorem phase_decode_aux :
    ∀ n : Nat, n < 480 →
      ((phase_reg_byte ((n : Int) - 240) &&& 31 : Nat) : Int) - 16 +
        (if (n : Int) - 240 < -16 then (-1 : Int) else 1) *
          (((phase_reg_byte ((n : Int) - 240) &&& 224) >>> 5 : Nat) : Int) * 32
        = (n : Int) - 240 := by
  decide

/-- C2: for every phase-balance value in [-240, 239], writing it over a
fault-free bus (fine and coarse fields to the phase register, sign bit to
bit 7 of the frequency register) and then reading the phase balance back
returns exactly the written value, from any starting state. -/
theorem phasebal_roundtrip :
    ∀ (st : LTCState) (v : Int), -240 ≤ v → v ≤ 239 →
      (ltc5599_write_iqphasebal busOK st v).1 = none ∧
      (ltc5599_read_iqphasebal busOK (ltc5599_write_iqphasebal busOK st v).2).1 = none ∧
      (ltc5599_read_iqphasebal busOK (ltc5599_write_iqphasebal busOK st v).2).2.2 = v := by
  intro st v h1 h2
  simp only [ltc5599_write_iqphasebal, ltc5599_read_iqphasebal, ltc5599_write, ltc5599_read,
    busOK, LTC5599_FREQ_REG, LTC5599_IQ_PHASEBAL_REG, mod256_mod256]
  norm_num [mod256_mod256, Nat.mod_eq_of_lt (phase_reg_byte_lt v)]
  have hb0 := phase_decode_aux (v + 240).toNat (by omega)
  have he : (((v + 240).toNat : Int) - 240) = v := by omega
  rw [he] at hb0
  by_cases hv : v < -16
  · have hclt : (st.shadowregs 0 % 256 &&& 127) < 256 :=
      lt_of_le_of_lt Nat.and_le_right (by norm_num)
    rw [if_pos hv, Nat.mod_eq_of_lt hclt, and127_and128, if_pos rfl]
    rw [if_pos hv] at hb0
    omega
  · have hor : (st.shadowregs 0 % 256 ||| 128) < 256 := by
      have hm : st.shadowregs 0 % 256 < 2 ^ 8 := by norm_num [Nat.mod_lt]
      have := Nat.or_lt_two_pow (y := 128) hm (by norm_num)
      omega
    rw [if_neg hv, Nat.mod_eq_of_lt hor, if_neg (or128_and128_ne _)]
    rw [if_neg hv] at hb0
    omega

/-- C2 witness: phase-balance round trip for value 100. -/
theorem phasebal_roundtrip_check :
    (ltc5599_write_iqphasebal busOK st0 100).1 = none ∧
    (ltc5599_read_iqphasebal busOK (ltc5599_write_iqphasebal busOK st0 100).2).1 = none ∧
    (ltc5599_read_iqphasebal busOK (ltc5599_write_iqphasebal busOK st0 100).2).2.2 = 100 :=
  phasebal_roundtrip st0 100 (by norm_num) (by norm_num)

/-- C8: if the single bus transaction of a frequency, gain, offset or
quadrature-gain-ratio write fails, the operation returns the bus error code
and the whole shadow cache is unchanged; for the two-step phase-balance
write, success of the first (phase-register) transaction followed by failure
of the second (frequency-register) transaction returns the bus error, leaves
the phase register cache entry updated to the new byte, and leaves the
frequency register cache entry unchanged. -/
theorem bus_failure_leaves_cache :
    ∀ (st : LTCState),
      (∀ (flt : Nat → Option Int) (c : Int), flt st.buslog.length = some c →
        (∀ v : Nat,
          (ltc5599_write_freq flt st v).1 = some (Err.ebus c) ∧
          (ltc5599_write_freq flt st v).2.shadowregs = st.shadowregs ∧
          (ltc5599_write_gain flt st v).1 = some (Err.ebus c) ∧
          (ltc5599_write_gain flt st v).2.shadowregs = st.shadowregs) ∧
        (∀ (chan : Nat) (v : Int), chan ≤ 1 →
          (ltc5599_write_offset flt st chan v).1 = some (Err.ebus c) ∧
          (ltc5599_write_offset flt st chan v).2.shadowregs = st.shadowregs) ∧
        (∀ v : Int,
          (ltc5599_write_iqgainrat flt st v).1 = some (Err.ebus c) ∧
          (ltc5599_write_iqgainrat flt st v).2.shadowregs = st.shadowregs)) ∧
      (∀ (flt : Nat → Option Int) (c : Int) (v : Int),
        flt st.buslog.length = none → flt (st.buslog.length + 1) = some c →
          (ltc5599_write_iqphasebal flt st v).1 = some (Err.ebus c) ∧
          (ltc5599_write_iqphasebal flt st v).2.shadowregs LTC5599_IQ_PHASEBAL_REG
            = phase_reg_byte v ∧
          (ltc5599_write_iqphasebal flt st v).2.shadowregs LTC5599_FREQ_REG
            = st.shadowregs LTC5599_FREQ_REG) := by
  intro st
  constructor
  · intro flt c hf
    refine ⟨fun v => ?_, fun chan v hc => ?_, fun v => ?_⟩
    · simp [ltc5599_write_freq, ltc5599_write_gain, ltc5599_write, hf,
        LTC5599_FREQ_REG, LTC5599_GAIN_REG]
    · simp [ltc5599_write_offset, ltc5599_write, hf, LTC5599_OFFSI_REG,
        if_neg (by omega : ¬ chan > 1)]
    · simp [ltc5599_write_iqgainrat, ltc5599_write, hf, LTC5599_IQ_GAINRAT_REG]
  · intro flt c v hf1 hf2
    simp [ltc5599_write_iqphasebal, ltc5599_write, hf1, hf2, LTC5599_FREQ_REG,
      LTC5599_IQ_PHASEBAL_REG]

/-- C8 witness: a bus that always fails with code -5 makes a frequency write
fail without touching the cache; a bus whose second transaction fails with
code -7 makes a phase-balance write of 100 fail after updating only the
phase register entry. -/
theorem bus_failure_leaves_cache_check :
    (ltc5599_write_freq (fun _ => some (-5)) st0 1).1 = some (Err.ebus (-5)) ∧
    (ltc5599_write_freq (fun _ => some (-5)) st0 1).2.shadowregs = st0.shadowregs ∧
    (ltc5599_write_iqphasebal (fun n => if n = 0 then none else some (-7)) st0 100).1
      = some (Err.ebus (-7)) ∧
    (ltc5599_write_iqphasebal (fun n => if n = 0 then none else some (-7)) st0 100).2.shadowregs
      LTC5599_IQ_PHASEBAL_REG = phase_reg_byte 100 ∧
    (ltc5599_write_iqphasebal (fun n => if n = 0 then none else some (-7)) st0 100).2.shadowregs
      LTC5599_FREQ_REG = st0.shadowregs LTC5599_FREQ_REG :=
  ⟨(((bus_failure_leaves_cache st0).1 (fun _ => some (-5)) (-5) rfl).1 1).1,
   (((bus_failure_leaves_cache st0).1 (fun _ => some (-5)) (-5) rfl).1 1).2.1,
   ((bus_failure_leaves_cache st0).2 (fun n => if n = 0 then none else some (-7)) (-7) 100
     rfl rfl).1,
   ((bus_failure_leaves_cache st0).2 (fun n => if n = 0 then none else some (-7)) (-7) 100
     rfl rfl).2.1,
   ((bus_failure_leaves_cache st0).2 (fun n => if n = 0 then none else some (-7)) (-7) 100
     rfl rfl).2.2⟩
